import Mathlib

/-!
Shallow embedding of the school-meal image generator (src/app.py) and proofs
about its prompt builder, generation client, batch loop, seed derivation and
session state.  Pure Python functions become Lean functions; the HTTP
transport, the PIL decoder and the UTF-8 replacing decoder are modelled as
explicit inputs; Python exceptions become an explicit `Except` value;
the mutable per-session state becomes explicit state passing.
-/

namespace SchoolMeal

/-! ## Python string primitives used by the source -/

/-- Python whitespace characters recognised by `str.strip()`. -/
def pyWhite (c : Char) : Bool :=
  c = ' ' || c = '\t' || c = '\n' || c = Char.ofNat 13 || c = Char.ofNat 11 || c = Char.ofNat 12

/-- Embedding of Python `str.strip()`: drop whitespace at both ends. -/
def pyStrip (s : String) : String :=
  String.mk (((s.data.dropWhile pyWhite).reverse.dropWhile pyWhite).reverse)

/-- Embedding of Python `sep.join(parts)`. -/
def pyJoin (sep : String) : List String → String
  | [] => ""
  | [s] => s
  | s :: rest => s ++ sep ++ pyJoin sep rest

/-- Whether `sub` leads the character list `s` (first characters of `s` equal `sub`). -/
def leadsWith : List Char → List Char → Bool
  | [], _ => true
  | _ :: _, [] => false
  | a :: as, b :: bs => a = b && leadsWith as bs

/-- Substring search over character lists. -/
def hasSub (sub : List Char) : List Char → Bool
  | [] => leadsWith sub []
  | c :: t => leadsWith sub (c :: t) || hasSub sub t

/-- Embedding of the Python containment test `sub in s` on strings. -/
def pyIn (sub s : String) : Bool := hasSub sub.data s.data

/-! ## Constants from src/app.py (lines 89-146) -/

/-- Constant `IMAGE_SIZE = 200` (src/app.py line 90). -/
def IMAGE_SIZE : Nat := 200

/-- Constant `REQUEST_TIMEOUT = 120` (src/app.py line 91). -/
def REQUEST_TIMEOUT : Nat := 120

/-- Constant `QUALITY_ENHANCERS` (src/app.py lines 138-146). -/
def QUALITY_ENHANCERS : List String :=
  ["highly detailed",
   "appetizing",
   "vibrant colors",
   "professional food styling",
   "clean composition",
   "200x200 square format",
   "centered on plate"]

/-- The fixed closing clause appended to every prompt (src/app.py line 161). -/
def NEG_CLAUSE : String :=
  "Do NOT include any text, words, letters, or watermarks in the image"

/-! ## Prompt Builder (src/app.py lines 150-162) -/

/-- The list `parts` assembled by `build_prompt` just before the final join
(src/app.py lines 152-161). -/
def build_parts (food_description style_prompt extra_details reference_description : String) :
    List String :=
  let parts := ["A realistic photo of " ++ food_description,
                style_prompt,
                pyJoin ", " QUALITY_ENHANCERS]
  let parts := if pyStrip extra_details ≠ "" then parts ++ [pyStrip extra_details] else parts
  let parts := if pyStrip reference_description ≠ "" then
                 parts ++ ["Similar style to: " ++ reference_description]
               else parts
  parts ++ [NEG_CLAUSE]

/-- Function `build_prompt` (src/app.py lines 150-162): join the assembled parts with a comma. -/
def build_prompt (food_description style_prompt : String)
    (extra_details : String := "") (reference_description : String := "") : String :=
  pyJoin ", " (build_parts food_description style_prompt extra_details reference_description)

/-- Property that `out` contains each string of the list, in the listed relative order,
as disjoint substrings from left to right. -/
def ContainsInOrder : String → List String → Prop
  | _, [] => True
  | s, n :: ns => ∃ pre post, s = pre ++ (n ++ post) ∧ ContainsInOrder post ns

/-! ## Generation Client (src/app.py lines 165-199)

The remote transport (`requests.get`) is modelled as an explicit input: it
either raises a Python exception or yields a response with a status code, a
reason phrase, an optional content-type header and a byte body.  The PIL
decoder (`Image.open`) and the replacing UTF-8 byte decoder
(`bytes.decode(..., errors="replace")`) are likewise inputs, bundled in
`Libs`.  Bytes are modelled as natural numbers. -/

/-- A Python exception as observed by the `except` clauses of the source:
the constructor records which `isinstance` class the exception value falls
under, together with `type(e).__name__`-relevant data and `str(e)`. -/
inductive PyExn where
  /-- An exception matching `requests.exceptions.Timeout`. -/
  | timeout (msg : String)
  /-- An exception matching `requests.exceptions.ConnectionError` but not `Timeout`. -/
  | connectionError (msg : String)
  /-- Any other exception (class name and message), e.g. a PIL decode error. -/
  | other (name msg : String)
deriving DecidableEq, Repr

/-- Value of `type(e).__name__` for a modelled exception. -/
def excTypeName : PyExn → String
  | .timeout _ => "Timeout"
  | .connectionError _ => "ConnectionError"
  | .other n _ => n

/-- Value of `str(e)` for a modelled exception. -/
def excStr : PyExn → String
  | .timeout m => m
  | .connectionError m => m
  | .other _ m => m

/-- Does the clause `except requests.exceptions.Timeout` match? -/
def isTimeoutExc : PyExn → Bool
  | .timeout _ => true
  | _ => false

/-- Does the clause `except requests.exceptions.ConnectionError` match? -/
def isConnectionExc : PyExn → Bool
  | .connectionError _ => true
  | _ => false

/-- Does the clause `except Exception` match?  Every modelled exception is an
`Exception` subclass (`BaseException`-only exceptions are not modelled). -/
def isExceptionExc : PyExn → Bool := fun _ => true

/-- One behaviour of the blocking `requests.get` call. -/
inductive Transport where
  /-- The call raises an exception. -/
  | raises (e : PyExn)
  /-- The call returns a response: `status_code`, `reason`, the optional
  `content-type` header, and the byte body `content`. -/
  | response (status : Nat) (reason : String) (hdr : Option String) (body : List Nat)
deriving DecidableEq, Repr

/-- Library functions the client calls, modelled as explicit inputs:
`urllib.parse.quote`, `PIL.Image.open` over an in-memory buffer (which may
raise), and `bytes.decode("utf-8", errors="replace")`. -/
structure Libs (Img : Type) where
  quote : String → String
  imageOpen : List Nat → Except PyExn Img
  decodeReplace : List Nat → String

/-- The `debug` dictionary built by `generate_image_pollinations`
(src/app.py lines 173, 179-181, 189).  Keys absent from the dictionary are
`none`. -/
structure Debug where
  url : String
  seed : Nat
  status_code : Option Nat := none
  content_type : Option String := none
  content_length : Option Nat := none
  response_preview : Option String := none
deriving DecidableEq, Repr

/-- Which branch of `generate_image_pollinations` produced the result.  The
labels follow the error taxonomy of the design (Timeout, ConnectionError,
HttpError, InvalidPayload, DecodeError, Unknown); `decodeErrorFailure` is
part of the taxonomy but, as proved below, is never produced by the code. -/
inductive GenBranch where
  | success
  | timeoutFailure
  | connectionFailure
  | httpErrorFailure
  | invalidPayloadFailure
  | decodeErrorFailure
  | unknownFailure
deriving DecidableEq, Repr

/-- The `(image_or_none, status_message, debug)` triple returned by
`generate_image_pollinations`. -/
structure GenReturn (Img : Type) where
  image : Option Img
  statusMsg : String
  debug : Debug

/-- The request URL (src/app.py line 171). -/
def buildUrl {Img : Type} (libs : Libs Img) (prompt : String) (seed width height : Nat) :
    String :=
  "https://image.pollinations.ai/prompt/" ++ libs.quote prompt
    ++ "?width=" ++ toString width ++ "&height=" ++ toString height
    ++ "&seed=" ++ toString seed ++ "&nologo=true&enhance=true"

/-- The initial debug dictionary `{"url": url[:200] + "...", "seed": seed}`
(src/app.py line 173). -/
def debugInit {Img : Type} (libs : Libs Img) (prompt : String) (seed width height : Nat) :
    Debug :=
  { url := (buildUrl libs prompt seed width height).take 200 ++ "...", seed := seed }

/-- The debug dictionary after a response was obtained (src/app.py
lines 177-181): status code, content-type (`"unknown"` when the header is
absent) and content length are filled in. -/
def debugResp {Img : Type} (libs : Libs Img) (prompt : String) (seed width height : Nat)
    (status : Nat) (hdr : Option String) (body : List Nat) : Debug :=
  { debugInit libs prompt seed width height with
    status_code := some status,
    content_type := some (hdr.getD "unknown"),
    content_length := some body.length }

/-- The `try` block of `generate_image_pollinations` (src/app.py
lines 175-192): returns the debug dictionary in its final mutated state
together with either a normal result (branch label, image-or-none, status
message) or a raised exception. -/
def tryBlock {Img : Type} (libs : Libs Img) (prompt : String) (seed width height : Nat)
    (tr : Transport) : Debug × Except PyExn (GenBranch × Option Img × String) :=
  let debug := debugInit libs prompt seed width height
  match tr with
  | .raises e => (debug, .error e)
  | .response status reason hdr body =>
    let content_type := hdr.getD "unknown"
    let content_length := body.length
    let debug := debugResp libs prompt seed width height status hdr body
    if status = 200 ∧ pyIn "image" content_type = true ∧ 500 < content_length then
      match libs.imageOpen body with
      | .ok img => (debug, .ok (.success, some img, "✅ Success"))
      | .error e => (debug, .error e)
    else if status = 200 then
      ({ debug with response_preview := some (libs.decodeReplace (body.take 300)) },
       .ok (.invalidPayloadFailure, none,
            "❌ Got HTTP 200 but content is not an image (type: " ++ content_type
              ++ ", size: " ++ toString content_length ++ "B)"))
    else
      (debug, .ok (.httpErrorFailure, none,
        "❌ HTTP " ++ toString status ++ ": " ++ reason))

/-- The `except` clauses of `generate_image_pollinations` (src/app.py
lines 194-199), tried in source order against a raised exception; `none`
means no clause matched and the exception escapes.  `dbg` is the debug
dictionary in the state the `try` block left it. -/
def handlerChain {Img : Type} (dbg : Debug) (e : PyExn) :
    Option (GenBranch × GenReturn Img) :=
  if isTimeoutExc e then
    some (.timeoutFailure,
      ⟨none, "⏱️ Timed out after " ++ toString REQUEST_TIMEOUT
               ++ "s — service may be overloaded", dbg⟩)
  else if isConnectionExc e then
    some (.connectionFailure,
      ⟨none, "🔌 Connection failed: " ++ (excStr e).take 150, dbg⟩)
  else if isExceptionExc e then
    some (.unknownFailure,
      ⟨none, "❌ " ++ excTypeName e ++ ": " ++ (excStr e).take 150, dbg⟩)
  else none

/-- The same three `except` clauses, written as an exhaustive match on the
modelled exception (clause order preserved: `Timeout` before
`ConnectionError` before `Exception`). -/
def handlerChainTotal {Img : Type} (dbg : Debug) : PyExn → GenBranch × GenReturn Img
  | .timeout _ =>
    (.timeoutFailure,
      ⟨none, "⏱️ Timed out after " ++ toString REQUEST_TIMEOUT
               ++ "s — service may be overloaded", dbg⟩)
  | .connectionError m =>
    (.connectionFailure, ⟨none, "🔌 Connection failed: " ++ m.take 150, dbg⟩)
  | .other n m =>
    (.unknownFailure, ⟨none, "❌ " ++ n ++ ": " ++ m.take 150, dbg⟩)

/-- Function `generate_image_pollinations` with exception propagation made explicit:
a `.error` value is an exception that escaped every `except` clause. -/
def generate_image_pollinationsE {Img : Type} (libs : Libs Img) (prompt : String)
    (seed : Nat) (width height : Nat) (tr : Transport) :
    Except PyExn (GenBranch × GenReturn Img) :=
  match tryBlock libs prompt seed width height tr with
  | (dbg, .ok (b, img, msg)) => .ok (b, ⟨img, msg, dbg⟩)
  | (dbg, .error e) =>
    match handlerChain dbg e with
    | some r => .ok r
    | none => .error e

/-- Function `generate_image_pollinations` (src/app.py lines 165-199) as the total
function it is (every exception is caught), paired with the label of the
branch that produced the result. -/
def generate_image_pollinations {Img : Type} (libs : Libs Img) (prompt : String)
    (seed : Nat) (width height : Nat) (tr : Transport) : GenBranch × GenReturn Img :=
  match tryBlock libs prompt seed width height tr with
  | (dbg, .ok (b, img, msg)) => (b, ⟨img, msg, dbg⟩)
  | (dbg, .error e) => handlerChainTotal dbg e

/-! ## Seed derivation and the batch loop (src/app.py lines 380-421, 453-454) -/

/-- The seed computed at loop iteration `i`
(src/app.py line 384: `int(time.time() * 1000) % 999999 + i * 1337`),
where `tMs` is the millisecond clock value read at that iteration. -/
def seedAt (tMs : Nat) (i : Nat) : Nat := tMs % 999999 + i * 1337

/-- The seeds a batch of `n` variations uses, when the clock reads
`times i` at iteration `i`. -/
def batchSeeds (times : Nat → Nat) (n : Nat) : List Nat :=
  (List.range n).map (fun i => seedAt (times i) i)

/-- One entry of `batch_logs` (src/app.py lines 392-398). -/
structure LogEntry where
  time : String
  variation : Nat
  status : String
  elapsed : String
  debug : Debug
deriving DecidableEq, Repr

/-- One entry of `generated_batch` (src/app.py lines 405-413). -/
structure Record (Img : Type) where
  image : Img
  prompt : String
  food : String
  style : String
  seed : Nat
  timestamp : String
  elapsed : String

/-- Inputs of one run of the generation logic (src/app.py lines 354-454):
the user-supplied strings, the variation count, and the ambient
environment of the loop — the millisecond clock read for the seed, the two
wall-clock strings (`datetime.now().strftime`), the formatted elapsed time
and the transport behaviour, each per iteration. -/
structure BatchInputs where
  food_desc : String
  selected_style : String
  style_prompt : String
  extra_details : String
  ref_description : String
  num_variations : Nat
  timeMs : Nat → Nat
  clockStr : Nat → String
  recordClockStr : Nat → String
  elapsedStr : Nat → String
  transport : Nat → Transport

/-- Value `full_prompt = build_prompt(food_desc, style_prompt, extra_details, ref_description)`
(src/app.py line 355). -/
def fullPromptOf (inp : BatchInputs) : String :=
  build_prompt inp.food_desc inp.style_prompt inp.extra_details inp.ref_description

/-- The result of the call the loop makes at iteration `i`
(src/app.py line 389, with the default `width`/`height`). -/
def attemptFull {Img : Type} (libs : Libs Img) (inp : BatchInputs) (i : Nat) :
    GenBranch × GenReturn Img :=
  generate_image_pollinations libs (fullPromptOf inp) (seedAt (inp.timeMs i) i)
    IMAGE_SIZE IMAGE_SIZE (inp.transport i)

/-- The `log_entry` dictionary appended at iteration `i`
(src/app.py lines 392-399), given the returned triple. -/
def logOf (inp : BatchInputs) (i : Nat) {Img : Type} (ret : GenReturn Img) : LogEntry :=
  { time := inp.clockStr i, variation := i + 1, status := ret.statusMsg,
    elapsed := inp.elapsedStr i, debug := ret.debug }

/-- The record appended to `generated_batch` at iteration `i` when the
returned image is not `None` (src/app.py lines 401-413). -/
def recOf (inp : BatchInputs) (i : Nat) {Img : Type} (ret : GenReturn Img) :
    Option (Record Img) :=
  match ret.image with
  | some img =>
    some { image := img, prompt := fullPromptOf inp, food := inp.food_desc,
           style := inp.selected_style, seed := seedAt (inp.timeMs i) i,
           timestamp := inp.recordClockStr i, elapsed := inp.elapsedStr i }
  | none => none

/-- The batch loop (src/app.py lines 380-416): `batch_logs` receives one
entry per iteration in index order, `generated_batch` one record per
successful iteration in index order. -/
def runBatch {Img : Type} (libs : Libs Img) (inp : BatchInputs) :
    List LogEntry × List (Record Img) :=
  ((List.range inp.num_variations).map
     (fun i => logOf inp i (attemptFull libs inp i).2),
   (List.range inp.num_variations).filterMap
     (fun i => recOf inp i (attemptFull libs inp i).2))

/-- Value `success_count = len(generated_batch)` (src/app.py line 420). -/
def success_count {Img : Type} (libs : Libs Img) (inp : BatchInputs) : Nat :=
  (runBatch libs inp).2.length

/-- Value `fail_count = num_variations - success_count` (src/app.py line 421). -/
def fail_count {Img : Type} (libs : Libs Img) (inp : BatchInputs) : Nat :=
  inp.num_variations - success_count libs inp

/-- One iteration of the batch loop with exception propagation made
explicit: if the client call raised an uncaught exception it would escape
the loop here. -/
def batchStepE {Img : Type} (libs : Libs Img) (inp : BatchInputs)
    (acc : List LogEntry × List (Record Img)) (i : Nat) :
    Except PyExn (List LogEntry × List (Record Img)) := do
  let r ← generate_image_pollinationsE libs (fullPromptOf inp) (seedAt (inp.timeMs i) i)
            IMAGE_SIZE IMAGE_SIZE (inp.transport i)
  pure (acc.1 ++ [logOf inp i r.2], acc.2 ++ (recOf inp i r.2).toList)

/-- The batch loop with exception propagation made explicit. -/
def runBatchE {Img : Type} (libs : Libs Img) (inp : BatchInputs) :
    Except PyExn (List LogEntry × List (Record Img)) :=
  (List.range inp.num_variations).foldlM (batchStepE libs inp) ([], [])

/-! ## Session state (src/app.py lines 213-219, 344-348, 401-414, 453-454) -/

/-- The three `st.session_state` fields the pipeline owns. -/
structure SessionState (Img : Type) where
  generated_images : List (Record Img)
  generation_count : Nat
  debug_logs : List LogEntry

/-- The initial session state (src/app.py lines 213-219). -/
def initialSession {Img : Type} : SessionState Img := ⟨[], 0, []⟩

/-- The net effect of one completed generation run on the session state:
`generation_count` is incremented once per success inside the loop
(src/app.py line 414), and the batch logs and records are prepended after
the loop (src/app.py lines 453-454). -/
def applyBatch {Img : Type} (libs : Libs Img) (s : SessionState Img)
    (inp : BatchInputs) : SessionState Img :=
  { generated_images := (runBatch libs inp).2 ++ s.generated_images,
    generation_count := s.generation_count + (runBatch libs inp).2.length,
    debug_logs := (runBatch libs inp).1 ++ s.debug_logs }

/-- The Clear All handler (src/app.py lines 344-348): all three fields are
reset in the same handler before the rerun. -/
def clearSession {Img : Type} (s : SessionState Img) : SessionState Img :=
  { s with generated_images := [], generation_count := 0, debug_logs := [] }

/-- One user-triggered operation on the session. -/
inductive SessionOp where
  | generateBatch (inp : BatchInputs)
  | clearAll

/-- Execute one operation. -/
def execOp {Img : Type} (libs : Libs Img) (s : SessionState Img) :
    SessionOp → SessionState Img
  | .generateBatch inp => applyBatch libs s inp
  | .clearAll => clearSession s

/-- Execute a session history from the initial state. -/
def runSession {Img : Type} (libs : Libs Img) (ops : List SessionOp) : SessionState Img :=
  ops.foldl (execOp libs) initialSession

/-- The number of Success records accumulated since the last reset, written
from the wording of the design: each batch adds its success count, a clear
resets the tally to zero. -/
def successesSinceClear {Img : Type} (libs : Libs Img) (ops : List SessionOp) : Nat :=
  ops.foldl (fun acc op =>
    match op with
    | .generateBatch inp => acc + success_count libs inp
    | .clearAll => 0) 0

/-! ## Statements of the claimed properties -/

/-- Claimed contract of the prompt builder: non-empty output, the optional
clauses appear exactly when their input is non-blank (the structural
equality on the parts list), the food description, style phrase, every
quality enhancer and the fixed closing clause occur in that relative
order, and the output ends with the fixed closing clause. -/
def PromptSpec (food style extra ref : String) : Prop :=
  build_prompt food style extra ref ≠ "" ∧
  build_parts food style extra ref =
    ["A realistic photo of " ++ food, style, pyJoin ", " QUALITY_ENHANCERS]
      ++ ((if pyStrip extra ≠ "" then [pyStrip extra] else [])
      ++ ((if pyStrip ref ≠ "" then ["Similar style to: " ++ ref] else [])
      ++ [NEG_CLAUSE])) ∧
  ContainsInOrder (build_prompt food style extra ref)
    (([food, style] ++ QUALITY_ENHANCERS) ++ [NEG_CLAUSE]) ∧
  ∃ p, build_prompt food style extra ref = p ++ NEG_CLAUSE

/-- Claimed outcome classification of the generation client, case by case:
transport timeout, transport connection failure, any other transport
exception (with an exception summary in the message), non-200 status (with
status and reason in the message), 200 with a non-image content-type or a
body of at most 500 bytes (with a preview of the body captured in the
debug dictionary), and 200 with an image content-type, a body longer than
500 bytes and a successful decode. -/
def ClassificationSpec {Img : Type} (libs : Libs Img) (prompt : String)
    (seed width height : Nat) : Prop :=
  (∀ m, generate_image_pollinationsE libs prompt seed width height (.raises (.timeout m)) =
     .ok (.timeoutFailure,
       ⟨none, "⏱️ Timed out after " ++ toString REQUEST_TIMEOUT
                ++ "s — service may be overloaded",
        debugInit libs prompt seed width height⟩)) ∧
  (∀ m, generate_image_pollinationsE libs prompt seed width height
          (.raises (.connectionError m)) =
     .ok (.connectionFailure,
       ⟨none, "🔌 Connection failed: " ++ m.take 150,
        debugInit libs prompt seed width height⟩)) ∧
  (∀ nm m, generate_image_pollinationsE libs prompt seed width height
             (.raises (.other nm m)) =
     .ok (.unknownFailure,
       ⟨none, "❌ " ++ nm ++ ": " ++ m.take 150,
        debugInit libs prompt seed width height⟩)) ∧
  (∀ status reason hdr body, status ≠ 200 →
     generate_image_pollinationsE libs prompt seed width height
         (.response status reason hdr body) =
       .ok (.httpErrorFailure,
         ⟨none, "❌ HTTP " ++ toString status ++ ": " ++ reason,
          debugResp libs prompt seed width height status hdr body⟩)) ∧
  (∀ reason hdr body, pyIn "image" (hdr.getD "unknown") = false ∨ body.length ≤ 500 →
     generate_image_pollinationsE libs prompt seed width height
         (.response 200 reason hdr body) =
       .ok (.invalidPayloadFailure,
         ⟨none, "❌ Got HTTP 200 but content is not an image (type: "
                  ++ hdr.getD "unknown" ++ ", size: " ++ toString body.length ++ "B)",
          { debugResp libs prompt seed width height 200 hdr body with
            response_preview := some (libs.decodeReplace (body.take 300)) }⟩)) ∧
  (∀ reason hdr body img, pyIn "image" (hdr.getD "unknown") = true → 500 < body.length →
     libs.imageOpen body = .ok img →
     generate_image_pollinationsE libs prompt seed width height
         (.response 200 reason hdr body) =
       .ok (.success,
         ⟨some img, "✅ Success",
          debugResp libs prompt seed width height 200 hdr body⟩))

/-- Amended decode-failure behaviour: a 200 image-typed response longer
than 500 bytes whose decode raises is handled by the generic
`except Exception` clause, producing the Unknown-form failure message with
the exception class name; no distinct DecodeError classification exists. -/
def DecodeFailureSpec {Img : Type} (libs : Libs Img) (prompt : String)
    (seed width height : Nat) : Prop :=
  ∀ reason hdr body name msg,
    pyIn "image" (hdr.getD "unknown") = true → 500 < body.length →
    libs.imageOpen body = .error (.other name msg) →
    generate_image_pollinations libs prompt seed width height
        (.response 200 reason hdr body) =
      (.unknownFailure,
       ⟨none, "❌ " ++ name ++ ": " ++ msg.take 150,
        debugResp libs prompt seed width height 200 hdr body⟩) ∧
    (generate_image_pollinations libs prompt seed width height
        (.response 200 reason hdr body)).1 ≠ .decodeErrorFailure

/-- Amended debug contract: on every call the returned debug dictionary
holds the truncated constructed URL and the seed; whenever a response was
obtained it additionally holds the HTTP status, the content-type and the
content-length. -/
def DebugContract {Img : Type} (libs : Libs Img) (prompt : String)
    (seed width height : Nat) (tr : Transport) : Prop :=
  (generate_image_pollinations libs prompt seed width height tr).2.debug.url
      = (buildUrl libs prompt seed width height).take 200 ++ "..." ∧
  (generate_image_pollinations libs prompt seed width height tr).2.debug.seed = seed ∧
  ∀ status reason hdr body, tr = .response status reason hdr body →
    (generate_image_pollinations libs prompt seed width height tr).2.debug.status_code
        = some status ∧
    (generate_image_pollinations libs prompt seed width height tr).2.debug.content_type
        = some (hdr.getD "unknown") ∧
    (generate_image_pollinations libs prompt seed width height tr).2.debug.content_length
        = some body.length

/-- Claimed success conditions for status-200 responses: success only with
the literal substring "image" in the content-type and a body strictly
longer than 500 bytes; a missing content-type header is read as "unknown"
and classified as the not-an-image failure; a body of exactly 500 bytes is
classified as the not-an-image failure rather than decoded. -/
def Status200Spec {Img : Type} (libs : Libs Img) (prompt : String)
    (seed width height : Nat) : Prop :=
  (∀ reason hdr body r,
     generate_image_pollinations libs prompt seed width height
         (.response 200 reason hdr body) = (.success, r) →
     pyIn "image" (hdr.getD "unknown") = true ∧ 500 < body.length) ∧
  (∀ reason body,
     (generate_image_pollinations libs prompt seed width height
         (.response 200 reason none body)).1 = .invalidPayloadFailure ∧
     (generate_image_pollinations libs prompt seed width height
         (.response 200 reason none body)).2.debug.content_type = some "unknown" ∧
     (generate_image_pollinations libs prompt seed width height
         (.response 200 reason none body)).2.image = none) ∧
  (∀ reason hdr body, pyIn "image" (hdr.getD "unknown") = true → body.length = 500 →
     (generate_image_pollinations libs prompt seed width height
         (.response 200 reason hdr body)).1 = .invalidPayloadFailure)

/-- Amended seed derivation: when every iteration of a batch of `n`
variations reads the same clock residue `b`, the seeds are
`b + index * 1337` and are pairwise distinct. -/
def SeedDerivationAmended (times : Nat → Nat) (n b : Nat) : Prop :=
  batchSeeds times n = (List.range n).map (fun i => b + i * 1337) ∧
  (batchSeeds times n).Nodup

/-- A concrete library instance for evaluating the client at specific
inputs: identity percent-encoding, a decoder that always succeeds. -/
def pngLibs : Libs Unit :=
  { quote := fun s => s, imageOpen := fun _ => .ok (), decodeReplace := fun _ => "" }

/-- A concrete library instance whose decoder always raises, the way
`PIL.Image.open` raises `UnidentifiedImageError` on undecodable bytes. -/
def badDecodeLibs : Libs Unit :=
  { quote := fun s => s,
    imageOpen := fun _ => .error (.other "UnidentifiedImageError" "cannot identify image file"),
    decodeReplace := fun _ => "" }

/-! ## Helper lemmas -/

theorem pyJoin_cons (sep x : String) (rest : List String) (h : rest ≠ []) :
    pyJoin sep (x :: rest) = x ++ sep ++ pyJoin sep rest := by
  cases rest with
  | nil => exact absurd rfl h
  | cons y ys => rfl

theorem cio_left (t : String) {s : String} {ns : List String}
    (h : ContainsInOrder s ns) : ContainsInOrder (t ++ s) ns := by
  cases ns with
  | nil => trivial
  | cons n ns =>
    obtain ⟨pre, post, hs, hrec⟩ := h
    exact ⟨t ++ pre, post, by rw [hs, String.append_assoc], hrec⟩

theorem cio_concat {s t : String} {ns ms : List String}
    (h1 : ContainsInOrder s ns) (h2 : ContainsInOrder t ms) :
    ContainsInOrder (s ++ t) (ns ++ ms) := by
  induction ns generalizing s with
  | nil => simpa using cio_left s h2
  | cons n ns ih =>
    obtain ⟨pre, post, hs, hrec⟩ := h1
    exact ⟨pre, post ++ t, by rw [hs]; simp [String.append_assoc], ih hrec⟩

theorem cio_splice {s b : String} {as cs bs : List String}
    (h : ContainsInOrder s (as ++ b :: cs)) (hb : ContainsInOrder b bs) :
    ContainsInOrder s (as ++ (bs ++ cs)) := by
  induction as generalizing s with
  | nil =>
    obtain ⟨pre, post, hs, hrec⟩ := h
    have h2 := cio_concat (cio_left pre hb) hrec
    rw [hs, ← String.append_assoc]
    simpa using h2
  | cons a as ih =>
    obtain ⟨pre, post, hs, hrec⟩ := h
    exact ⟨pre, post, hs, ih hrec⟩

theorem cio_sublist {s : String} {ms ns : List String}
    (hsub : ms.Sublist ns) (h : ContainsInOrder s ns) : ContainsInOrder s ms := by
  induction hsub generalizing s with
  | slnil => trivial
  | cons a hsub ih =>
    obtain ⟨pre, post, hs, hrec⟩ := h
    rw [hs]
    exact cio_left pre (cio_left a (ih hrec))
  | cons₂ a hsub ih =>
    obtain ⟨pre, post, hs, hrec⟩ := h
    exact ⟨pre, post, hs, ih hrec⟩

theorem cio_pyJoin (sep : String) :
    ∀ xs : List String, xs ≠ [] → ContainsInOrder (pyJoin sep xs) xs
  | [], h => absurd rfl h
  | [x], _ => ⟨"", "", by simp [pyJoin], trivial⟩
  | x :: y :: ys, _ => by
    rw [pyJoin_cons sep x (y :: ys) (by simp)]
    refine ⟨"", sep ++ pyJoin sep (y :: ys), ?_, ?_⟩
    · simp [String.append_assoc]
    · exact cio_left sep (cio_pyJoin sep (y :: ys) (by simp))

theorem pyJoin_end (sep : String) :
    ∀ (xs : List String) (y : String), ∃ p, pyJoin sep (xs ++ [y]) = p ++ y
  | [], y => ⟨"", by simp [pyJoin]⟩
  | x :: xs, y => by
    obtain ⟨p, hp⟩ := pyJoin_end sep xs y
    refine ⟨x ++ sep ++ p, ?_⟩
    rw [List.cons_append, pyJoin_cons sep x (xs ++ [y]) (by simp), hp]
    simp [String.append_assoc]

theorem build_parts_eq (food style extra ref : String) :
    build_parts food style extra ref =
      ["A realistic photo of " ++ food, style, pyJoin ", " QUALITY_ENHANCERS]
        ++ ((if pyStrip extra ≠ "" then [pyStrip extra] else [])
        ++ ((if pyStrip ref ≠ "" then ["Similar style to: " ++ ref] else [])
        ++ [NEG_CLAUSE])) := by
  unfold build_parts
  by_cases h1 : pyStrip extra ≠ "" <;> by_cases h2 : pyStrip ref ≠ "" <;>
    simp [h1, h2]

/-! ## Claim C3: the prompt builder contract -/

/-- C3: for every non-empty food description and any style, extra details
and reference description, `build_prompt` returns a non-empty string whose
parts list contains the food clause, the style phrase, the joined quality
enhancers, the extra-details clause exactly when `extra_details` is
non-blank, the reference clause exactly when `reference_description` is
non-blank, and the fixed closing clause last; the output contains the food
description, the style phrase, every quality enhancer and the closing
clause in that relative order, and ends with the closing clause.
Determinism and freedom from side effects hold by construction: the
embedding is a pure function of its arguments, exactly like the source
function, which reads no global mutable state. -/
theorem build_prompt_spec (food style extra ref : String) (hfood : food ≠ "") :
    PromptSpec food style extra ref := by
  have hparts := build_parts_eq food style extra ref
  have hEnd : ∃ p, build_prompt food style extra ref = p ++ NEG_CLAUSE := by
    have hshape : build_parts food style extra ref =
        (["A realistic photo of " ++ food, style, pyJoin ", " QUALITY_ENHANCERS]
          ++ ((if pyStrip extra ≠ "" then [pyStrip extra] else [])
          ++ (if pyStrip ref ≠ "" then ["Similar style to: " ++ ref] else [])))
          ++ [NEG_CLAUSE] := by
      rw [hparts]; simp
    unfold build_prompt
    rw [hshape]
    exact pyJoin_end ", " _ NEG_CLAUSE
  refine ⟨?_, hparts, ?_, hEnd⟩
  · obtain ⟨p, hp⟩ := hEnd
    intro h0
    rw [h0] at hp
    have h2 := congrArg String.length hp
    rw [String.length_append] at h2
    have h3 : (0:Nat) < NEG_CLAUSE.length := by decide
    simp at h2
    omega
  · have h0 : ContainsInOrder (build_prompt food style extra ref)
        (build_parts food style extra ref) := by
      apply cio_pyJoin
      rw [hparts]; simp
    rw [hparts] at h0
    have hsub : (["A realistic photo of " ++ food, style,
        pyJoin ", " QUALITY_ENHANCERS] ++ [NEG_CLAUSE]).Sublist
        (["A realistic photo of " ++ food, style, pyJoin ", " QUALITY_ENHANCERS]
          ++ ((if pyStrip extra ≠ "" then [pyStrip extra] else [])
          ++ ((if pyStrip ref ≠ "" then ["Similar style to: " ++ ref] else [])
          ++ [NEG_CLAUSE]))) := by
      apply List.Sublist.append_left
      exact (List.sublist_append_right _ _).trans (List.sublist_append_right _ _)
    have h1 := cio_sublist hsub h0
    have hfoodcio : ContainsInOrder ("A realistic photo of " ++ food) [food] :=
      ⟨"A realistic photo of ", "", by simp, trivial⟩
    have h2 : ContainsInOrder (build_prompt food style extra ref)
        ([] ++ (("A realistic photo of " ++ food)
          :: [style, pyJoin ", " QUALITY_ENHANCERS, NEG_CLAUSE])) := by
      simpa using h1
    have h3 := cio_splice h2 hfoodcio
    have h4 : ContainsInOrder (build_prompt food style extra ref)
        ([food, style] ++ (pyJoin ", " QUALITY_ENHANCERS) :: [NEG_CLAUSE]) := by
      simpa using h3
    have hq : ContainsInOrder (pyJoin ", " QUALITY_ENHANCERS) QUALITY_ENHANCERS :=
      cio_pyJoin ", " QUALITY_ENHANCERS (by simp [QUALITY_ENHANCERS])
    have h5 := cio_splice h4 hq
    simpa using h5

/-- Witness for C3 at a concrete menu entry. -/
theorem build_prompt_spec_witness :
    ("Fish fingers with chips and peas" ≠ "") ∧
    PromptSpec "Fish fingers with chips and peas"
      "professional food photography, realistic, natural lighting" "" "" :=
  ⟨by decide,
   build_prompt_spec "Fish fingers with chips and peas"
     "professional food photography, realistic, natural lighting" "" "" (by decide)⟩

/-! ## Claim C1: outcome classification of the generation client -/

/-- C1: every call outcome is classified as the design states: transport
timeout, transport connection failure, other transport exception (message
carries the exception summary), non-200 status (message carries status and
reason), 200 with non-image type or short body (body preview captured),
and 200 with image type, long body and successful decode. -/
theorem generate_classification (Img : Type) (libs : Libs Img) (prompt : String)
    (seed width height : Nat) : ClassificationSpec libs prompt seed width height := by
  refine ⟨fun m => rfl, fun m => rfl, fun nm m => rfl, ?_, ?_, ?_⟩
  · intro status reason hdr body h
    have hc : ¬ (status = 200 ∧ pyIn "image" (hdr.getD "unknown") = true
        ∧ 500 < body.length) := by
      rintro ⟨h200, -, -⟩; exact h h200
    simp [generate_image_pollinationsE, tryBlock, hc, h]
  · intro reason hdr body h
    have hc : ¬ (pyIn "image" (hdr.getD "unknown") = true ∧ 500 < body.length) := by
      rintro ⟨hp, hl⟩
      rcases h with h | h
      · rw [h] at hp; cases hp
      · omega
    simp [generate_image_pollinationsE, tryBlock, hc]
  · intro reason hdr body img h1 h2 h3
    simp [generate_image_pollinationsE, tryBlock, h1, h2, h3]

/-- Witness for C1: concrete evaluations through the theorem at an HTTP
404, a 200 text/html response, and a transport timeout. -/
theorem generate_classification_witness :
    (generate_image_pollinationsE pngLibs "p" 7 200 200
        (.response 404 "Not Found" (some "text/html") [1, 2, 3]) =
      .ok (.httpErrorFailure,
        ⟨none, "❌ HTTP 404: Not Found",
         debugResp pngLibs "p" 7 200 200 404 (some "text/html") [1, 2, 3]⟩)) ∧
    (generate_image_pollinationsE pngLibs "p" 7 200 200
        (.response 200 "OK" (some "image/png") (List.replicate 501 0)) =
      .ok (.success,
        ⟨some (), "✅ Success",
         debugResp pngLibs "p" 7 200 200 200 (some "image/png") (List.replicate 501 0)⟩)) ∧
    (generate_image_pollinationsE pngLibs "p" 7 200 200 (.raises (.timeout "t")) =
      .ok (.timeoutFailure,
        ⟨none, "⏱️ Timed out after " ++ toString REQUEST_TIMEOUT
                 ++ "s — service may be overloaded",
         debugInit pngLibs "p" 7 200 200⟩)) := by
  have h := generate_classification Unit pngLibs "p" 7 200 200
  exact ⟨h.2.2.2.1 404 "Not Found" (some "text/html") [1, 2, 3] (by decide),
         h.2.2.2.2.2 "OK" (some "image/png") (List.replicate 501 0) () (by decide)
           (by rw [List.length_replicate]; omega) rfl,
         h.1 "t"⟩

/-! ## Claim C2: no exception escapes the client or the batch loop -/

theorem generateE_eq_ok {Img : Type} (libs : Libs Img) (prompt : String)
    (seed width height : Nat) (tr : Transport) :
    generate_image_pollinationsE libs prompt seed width height tr =
      .ok (generate_image_pollinations libs prompt seed width height tr) := by
  unfold generate_image_pollinationsE generate_image_pollinations
  rcases htb : tryBlock libs prompt seed width height tr with ⟨dbg, exc⟩
  cases exc with
  | ok v =>
    obtain ⟨b, img, msg⟩ := v
    rfl
  | error e => cases e <;> rfl

theorem batch_foldE {Img : Type} (libs : Libs Img) (inp : BatchInputs) :
    ∀ (l : List Nat) (acc : List LogEntry × List (Record Img)),
    l.foldlM (batchStepE libs inp) acc =
      .ok (acc.1 ++ l.map (fun i => logOf inp i (attemptFull libs inp i).2),
           acc.2 ++ l.filterMap (fun i => recOf inp i (attemptFull libs inp i).2))
  | [], acc => by simp only [List.foldlM_nil, List.map_nil, List.filterMap_nil,
      List.append_nil]; rfl
  | x :: xs, acc => by
    rw [List.foldlM_cons]
    have hstep : batchStepE libs inp acc x =
        .ok (acc.1 ++ [logOf inp x (attemptFull libs inp x).2],
             acc.2 ++ (recOf inp x (attemptFull libs inp x).2).toList) := by
      unfold batchStepE
      rw [generateE_eq_ok]
      rfl
    rw [hstep]
    show xs.foldlM (batchStepE libs inp) _ = _
    rw [batch_foldE libs inp xs _]
    cases hx : recOf inp x (attemptFull libs inp x).2 <;>
      simp [List.filterMap_cons, hx]

/-- C2: for every input and every transport behaviour, every exception
raised inside the client is converted by one of its `except` clauses into
an ordinary returned value — the call never produces an escaped exception —
and consequently the batch loop, which would propagate such an exception,
always completes with a value. -/
theorem client_never_raises (Img : Type) (libs : Libs Img) :
    (∀ (prompt : String) (seed width height : Nat) (tr : Transport),
       ∃ r, generate_image_pollinationsE libs prompt seed width height tr = .ok r) ∧
    (∀ inp : BatchInputs, ∃ rb, runBatchE libs inp = .ok rb) :=
  ⟨fun prompt seed width height tr =>
     ⟨generate_image_pollinations libs prompt seed width height tr,
      generateE_eq_ok libs prompt seed width height tr⟩,
   fun inp =>
     ⟨runBatch libs inp, by
       unfold runBatchE
       rw [batch_foldE libs inp (List.range inp.num_variations) ([], [])]
       simp [runBatch]⟩⟩

/-! ## Claim C5: the batch loop runs every attempt and counts outcomes -/

theorem length_filterMap_eq_countP {α β : Type} (g : α → Option β) :
    ∀ l : List α, (l.filterMap g).length = l.countP (fun a => (g a).isSome)
  | [] => rfl
  | x :: xs => by
    cases hx : g x <;>
      simp [List.filterMap_cons, hx, List.countP_cons,
            length_filterMap_eq_countP g xs]

/-- C5: for every batch the loop performs all `num_variations` attempts in
index order whatever the per-attempt outcomes are: the log sequence has
exactly `num_variations` entries numbered `1..num_variations` in order,
`success_count` equals the number of attempts that returned an image, and
`fail_count` is the difference.  The universal quantification over the
transport behaviour expresses that failures never abort the remaining
iterations. -/
theorem batch_loop_spec (Img : Type) (libs : Libs Img) (inp : BatchInputs) :
    (runBatch libs inp).1.length = inp.num_variations ∧
    (runBatch libs inp).1.map (fun e => e.variation)
      = (List.range inp.num_variations).map (fun k => k + 1) ∧
    success_count libs inp
      = (List.range inp.num_variations).countP
          (fun i => ((attemptFull libs inp i).2.image).isSome) ∧
    fail_count libs inp = inp.num_variations - success_count libs inp := by
  refine ⟨?_, ?_, ?_, rfl⟩
  · simp [runBatch]
  · simp only [runBatch, List.map_map]
    rfl
  · unfold success_count runBatch
    rw [length_filterMap_eq_countP]
    congr 1
    funext i
    cases h : (attemptFull libs inp i).2.image <;> simp [recOf, h]

/-! ## Claim C6: the generation counter invariant -/

theorem session_count_fold {Img : Type} (libs : Libs Img) (ops : List SessionOp) :
    ∀ s : SessionState Img,
      (ops.foldl (execOp libs) s).generation_count =
        ops.foldl (fun acc op => match op with
          | SessionOp.generateBatch inp => acc + success_count libs inp
          | SessionOp.clearAll => 0) s.generation_count := by
  induction ops with
  | nil => intro s; rfl
  | cons op ops ih =>
    intro s
    cases op with
    | generateBatch inp => exact ih _
    | clearAll => exact ih _

theorem session_count_len {Img : Type} (libs : Libs Img) (ops : List SessionOp) :
    ∀ s : SessionState Img, s.generation_count = s.generated_images.length →
      (ops.foldl (execOp libs) s).generation_count =
        (ops.foldl (execOp libs) s).generated_images.length := by
  induction ops with
  | nil => intro s h; exact h
  | cons op ops ih =>
    intro s h
    cases op with
    | generateBatch inp =>
      refine ih _ ?_
      simp only [execOp, applyBatch, List.length_append, h]
      omega
    | clearAll => exact ih _ rfl

/-- C6: after any sequence of completed operations, `generation_count`
equals the length of the stored record sequence and equals the number of
successful generations accumulated since the last clear; moreover a batch
operation never decreases the counter (only `clearAll` resets it). -/
theorem generation_count_invariant (Img : Type) (libs : Libs Img)
    (ops : List SessionOp) :
    (runSession libs ops).generation_count
        = (runSession libs ops).generated_images.length ∧
    (runSession libs ops).generation_count = successesSinceClear libs ops ∧
    (∀ (s : SessionState Img) (inp : BatchInputs),
       s.generation_count ≤ (execOp libs s (.generateBatch inp)).generation_count) :=
  ⟨session_count_len libs ops initialSession rfl,
   session_count_fold libs ops initialSession,
   fun s inp => Nat.le_add_right _ _⟩

/-! ## Claim C7: the clear action resets all three fields -/

/-- C7: after the clear action the record list is empty, the counter is
zero and the debug log is empty, for every prior state; the handler
performs the three resets together before the rerun, so callers never
observe a half-done reset. -/
theorem clear_all_spec (Img : Type) (s : SessionState Img) :
    (clearSession s).generated_images = [] ∧
    (clearSession s).generation_count = 0 ∧
    (clearSession s).debug_logs = [] :=
  ⟨rfl, rfl, rfl⟩

/-! ## Claim C4: seed derivation (corrected) -/

/-- C4 counterexample: the base is re-read from the clock at every
iteration (src/app.py line 384 runs inside the loop), so the seeds of one
batch need not fit `seed_base + index * K` for any single per-batch base
and fixed stride: with the clock (in ms) reading 1000, 1001, 1003 at the
three iterations the seeds are 1000, 2338, 3677, which is not an
arithmetic progression; and with the clock reading 1337 and then 999999
(the clock is monotone, the modulus wrapped), the two seeds are both 1337,
so the seeds of a batch of size 2 are not pairwise distinct. -/
theorem seed_single_base_counterexample :
    (¬ ∃ b K : Nat, batchSeeds (fun i => [1000, 1001, 1003].getD i 0) 3 =
        (List.range 3).map (fun i => b + i * K)) ∧
    batchSeeds (fun i => [1337, 999999].getD i 0) 2 = [1337, 1337] ∧
    ¬ (batchSeeds (fun i => [1337, 999999].getD i 0) 2).Nodup := by
  refine ⟨?_, by decide, by decide⟩
  rintro ⟨b, K, h⟩
  have h0 : batchSeeds (fun i => [1000, 1001, 1003].getD i 0) 3
      = [1000, 2338, 3677] := by decide
  have h1 : List.range 3 = [0, 1, 2] := by decide
  rw [h0, h1] at h
  simp only [List.map_cons, List.map_nil, List.cons.injEq, and_true] at h
  omega

/-- C4 amended: each seed is `(clock at iteration i) % 999999 + i * 1337`,
with the base re-read at every iteration rather than fixed per batch;
whenever all iterations of a batch read the same base residue (in
particular when the clock does not advance across the loop), the `n` seeds
are `base + index * 1337` and are pairwise distinct, for every batch size
`n` in `[1, 6]`. -/
theorem seed_derivation_amended (times : Nat → Nat) (n b : Nat)
    (h1 : 1 ≤ n) (h6 : n ≤ 6) (hb : ∀ i, i < n → times i % 999999 = b) :
    SeedDerivationAmended times n b := by
  have hmap : batchSeeds times n = (List.range n).map (fun i => b + i * 1337) := by
    unfold batchSeeds
    apply List.map_congr_left
    intro i hi
    rw [List.mem_range] at hi
    unfold seedAt
    rw [hb i hi]
  refine ⟨hmap, ?_⟩
  rw [hmap]
  have hinj : Function.Injective (fun i : Nat => b + i * 1337) := by
    intro x y hxy
    simp only at hxy
    omega
  exact List.Nodup.map hinj (List.nodup_range n)

/-- Witness for the amended C4 at a constant clock. -/
theorem seed_derivation_amended_witness :
    SeedDerivationAmended (fun _ => 5) 6 5 :=
  seed_derivation_amended (fun _ => 5) 6 5 (by decide) (by decide) (fun _ _ => rfl)

/-! ## Claim C8: decode failures (corrected) -/

set_option maxRecDepth 8000 in
/-- C8 counterexample: a 200 response typed image/png with a 501-byte body
whose decode raises is classified by the generic handler as the
Unknown-form failure (message `❌ ExcName: ...`), not as a distinct
DecodeError. -/
theorem decode_error_counterexample :
    (generate_image_pollinations badDecodeLibs "school meal" 7 200 200
        (.response 200 "OK" (some "image/png") (List.replicate 501 0))).1
      = .unknownFailure ∧
    GenBranch.unknownFailure ≠ GenBranch.decodeErrorFailure ∧
    (generate_image_pollinations badDecodeLibs "school meal" 7 200 200
        (.response 200 "OK" (some "image/png") (List.replicate 501 0))).2.statusMsg
      = "❌ UnidentifiedImageError: cannot identify image file" := by
  refine ⟨by decide, by decide, by decide⟩

/-- C8 amended: a status-200 response with an image content-type and a
body longer than 500 bytes whose decode raises is handled by the
`except Exception` clause: the result is the Unknown-form failure whose
message carries the exception class name, never a DecodeError
classification (which does not exist in the code). -/
theorem decode_failure_generic (Img : Type) (libs : Libs Img) (prompt : String)
    (seed width height : Nat) : DecodeFailureSpec libs prompt seed width height := by
  intro reason hdr body name msg h1 h2 h3
  have heq : generate_image_pollinations libs prompt seed width height
      (.response 200 reason hdr body) =
    (.unknownFailure,
     ⟨none, "❌ " ++ name ++ ": " ++ msg.take 150,
      debugResp libs prompt seed width height 200 hdr body⟩) := by
    simp [generate_image_pollinations, tryBlock, h1, h2, h3, handlerChainTotal]
  exact ⟨heq, by rw [heq]; simp⟩

/-- Witness for the amended C8 at the concrete failing decoder. -/
theorem decode_failure_generic_witness :
    generate_image_pollinations badDecodeLibs "p" 7 200 200
        (.response 200 "OK" (some "image/png") (List.replicate 501 0)) =
      (.unknownFailure,
       ⟨none, "❌ " ++ "UnidentifiedImageError" ++ ": "
                ++ ("cannot identify image file").take 150,
        debugResp badDecodeLibs "p" 7 200 200 200 (some "image/png")
          (List.replicate 501 0)⟩) :=
  (decode_failure_generic Unit badDecodeLibs "p" 7 200 200 "OK" (some "image/png")
    (List.replicate 501 0) "UnidentifiedImageError" "cannot identify image file"
    (by decide) (by rw [List.length_replicate]; omega) rfl).1

/-! ## Claim C9: debug info (corrected) -/

/-- C9 counterexample: on a transport timeout no response was obtained and
the returned debug dictionary carries neither a content-type nor a
content-length, so the debug info does not include them on every call. -/
theorem debug_fields_counterexample :
    (generate_image_pollinations pngLibs "p" 7 200 200
        (.raises (.timeout "t"))).2.debug.content_type = none ∧
    (generate_image_pollinations pngLibs "p" 7 200 200
        (.raises (.timeout "t"))).2.debug.content_length = none :=
  ⟨rfl, rfl⟩

theorem debug_of_response {Img : Type} (libs : Libs Img) (prompt : String)
    (seed width height status : Nat) (reason : String) (hdr : Option String)
    (body : List Nat) :
    ∃ pv, (generate_image_pollinations libs prompt seed width height
        (.response status reason hdr body)).2.debug =
      { debugResp libs prompt seed width height status hdr body with
        response_preview := pv } := by
  simp only [generate_image_pollinations, tryBlock]
  by_cases hc : status = 200 ∧ pyIn "image" (hdr.getD "unknown") = true
      ∧ 500 < body.length
  · rw [if_pos hc]
    cases hio : libs.imageOpen body with
    | ok img => exact ⟨none, rfl⟩
    | error e => cases e <;> exact ⟨none, rfl⟩
  · rw [if_neg hc]
    by_cases h200 : status = 200
    · rw [if_pos h200]
      exact ⟨some (libs.decodeReplace (body.take 300)), rfl⟩
    · rw [if_neg h200]
      exact ⟨none, rfl⟩

/-- C9 amended: on every call, for both outcomes, the returned debug info
includes the constructed URL truncated for display and the seed; whenever
a response was obtained it additionally includes the HTTP status, the
content-type and the content-length (a call on which no response was
obtained carries neither, see the counterexample). -/
theorem debug_contract (Img : Type) (libs : Libs Img) (prompt : String)
    (seed width height : Nat) (tr : Transport) :
    DebugContract libs prompt seed width height tr := by
  cases tr with
  | raises e =>
    refine ⟨?_, ?_, ?_⟩
    · cases e <;> rfl
    · cases e <;> rfl
    · intro status reason hdr body h; cases h
  | response status reason hdr body =>
    obtain ⟨pv, hdbg⟩ :=
      debug_of_response libs prompt seed width height status reason hdr body
    unfold DebugContract
    rw [hdbg]
    refine ⟨rfl, rfl, ?_⟩
    intro status2 reason2 hdr2 body2 heq
    cases heq
    exact ⟨rfl, rfl, rfl⟩

/-- Witness for the amended C9: a concrete call on which a response was
obtained, with the implication discharged. -/
theorem debug_contract_witness :
    DebugContract pngLibs "p" 7 200 200
        (.response 200 "OK" (some "image/png") (List.replicate 501 0)) ∧
    (generate_image_pollinations pngLibs "p" 7 200 200
        (.response 200 "OK" (some "image/png") (List.replicate 501 0))).2.debug.status_code
      = some 200 :=
  have h := debug_contract Unit pngLibs "p" 7 200 200
    (.response 200 "OK" (some "image/png") (List.replicate 501 0))
  ⟨h, (h.2.2 200 "OK" (some "image/png") (List.replicate 501 0) rfl).1⟩

/-! ## Claim C10: the exact status-200 success conditions -/

/-- C10: a 200 response yields Success only when the literal substring
"image" occurs in the content-type and the body is strictly longer than
500 bytes; a missing content-type header is read as "unknown" and lands in
the not-an-image failure; a 200 image response of exactly 500 bytes is
likewise the not-an-image failure and is not decoded (the classification
holds for every decoder). -/
theorem status200_spec (Img : Type) (libs : Libs Img) (prompt : String)
    (seed width height : Nat) : Status200Spec libs prompt seed width height := by
  refine ⟨?_, ?_, ?_⟩
  · intro reason hdr body r h
    by_cases hc : pyIn "image" (hdr.getD "unknown") = true ∧ 500 < body.length
    · exact hc
    · exfalso
      have h2 : (generate_image_pollinations libs prompt seed width height
          (.response 200 reason hdr body)).1 = .invalidPayloadFailure := by
        simp [generate_image_pollinations, tryBlock, hc]
      rw [h] at h2
      cases h2
  · intro reason body
    have hfalse : pyIn "image" "unknown" = false := by decide
    refine ⟨?_, ?_, ?_⟩ <;>
      simp [generate_image_pollinations, tryBlock, hfalse, debugResp, debugInit]
  · intro reason hdr body h1 h2
    have hc : ¬ (pyIn "image" (hdr.getD "unknown") = true ∧ 500 < body.length) := by
      rintro ⟨-, hl⟩; omega
    simp [generate_image_pollinations, tryBlock, hc]

set_option maxRecDepth 8000 in
/-- Witness for C10: the success clause applied at a 501-byte image/png
response, and the boundary case of a body of exactly 500 bytes. -/
theorem status200_spec_witness :
    (pyIn "image" ((some "image/png" : Option String).getD "unknown") = true ∧
       500 < (List.replicate 501 (0:Nat)).length) ∧
    (generate_image_pollinations pngLibs "p" 7 200 200
        (.response 200 "OK" (some "image/png") (List.replicate 500 0))).1
      = .invalidPayloadFailure :=
  ⟨(status200_spec Unit pngLibs "p" 7 200 200).1 "OK" (some "image/png")
      (List.replicate 501 0)
      ⟨some (), "✅ Success",
       debugResp pngLibs "p" 7 200 200 200 (some "image/png") (List.replicate 501 0)⟩
      rfl,
   (status200_spec Unit pngLibs "p" 7 200 200).2.2 "OK" (some "image/png")
      (List.replicate 500 0) (by decide) (by rw [List.length_replicate])⟩

end SchoolMeal
